import Mathlib

/-!
Verification development for the LED identity-resolution and lifecycle
registry of phosphor-led-sysfs (src/interfaces/internal_interface.cpp
and .hpp).

Strings are modelled as `List Char`. The filesystem existence check
performed by `createLEDPath` is modelled as a boolean oracle passed in
as a parameter. The `InternalInterface` state carries, besides the
`leds` map of the C++ class, three ghost fields that record observable
effects: `nextSerial` numbers each constructed `Physical` control
object in construction order, `destroyed` records the serials of
control objects whose destructor has run, and `log` records the paths
passed to the error logger.
-/

/- Constants from internal_interface.hpp. -/

def DEVPATH : List Char := "/sys/class/leds/".data

def OBJPATH : List Char := "/xyz/openbmc_project/led/physical".data

/- Splitting on a separator character, modelling boost::split with
   is_any_of of a single character: empty tokens are kept and the empty
   input yields one empty token. -/

def splitOnChar (sep : Char) : List Char → List (List Char)
  | [] => [[]]
  | c :: rest =>
    if c = sep then [] :: splitOnChar sep rest
    else
      match splitOnChar sep rest with
      | [] => [[c]]
      | w :: ws => (c :: w) :: ws

/- LedDescr from internal_interface.hpp: three std::string fields that
   default-construct to the empty string. -/

structure LedDescr where
  devicename : List Char
  color : List Char
  function : List Char
deriving DecidableEq, Repr

/- InternalInterface::getLedDescr: splits the name on a colon and assigns
   words.at(0), words.at(1), words.at(2) in order to devicename, color and
   function; an out_of_range access is caught and stops the assignment,
   leaving the remaining fields empty. -/

def getLedDescr (name : List Char) : LedDescr :=
  match splitOnChar ':' name with
  | [] => { devicename := [], color := [], function := [] }
  | [d] => { devicename := d, color := [], function := [] }
  | [d, c] => { devicename := d, color := c, function := [] }
  | d :: c :: f :: _ => { devicename := d, color := c, function := f }

/- InternalInterface::getDbusName: devicename, then function if non-empty,
   then color if non-empty, joined with an underscore. -/

def getDbusName (ledDescr : LedDescr) : List Char :=
  List.intercalate ['_']
    ([ledDescr.devicename]
      ++ (if ledDescr.function = [] then [] else [ledDescr.function])
      ++ (if ledDescr.color = [] then [] else [ledDescr.color]))

/- The bus object path built in createLEDPath: OBJPATH /= dbusName, where
   sdbusplus object_path append inserts a single slash. -/

def ledObjectPath (ledName : List Char) : List Char :=
  OBJPATH ++ ('/' :: getDbusName (getLedDescr ledName))

/- The Physical control object constructed in createLEDPath. It owns the
   SysfsLed device handle over the validated device path and stores a copy
   of the descriptor color; serial is the ghost construction number. -/

structure Physical where
  objPath : List Char
  color : List Char
  devPath : List Char
  serial : Nat
deriving DecidableEq, Repr

def mkPhysical (ledName : List Char) (serial : Nat) : Physical :=
  { objPath := ledObjectPath ledName
    color := (getLedDescr ledName).color
    devPath := DEVPATH ++ ledName
    serial := serial }

/- State of the InternalInterface class: the leds map (association list
   keyed by bus object path) plus the ghost fields described above. -/

structure InternalInterface where
  leds : List (List Char × Physical)
  nextSerial : Nat
  destroyed : List Nat
  log : List (List Char)
deriving DecidableEq, Repr

def initialState : InternalInterface :=
  { leds := [], nextSerial := 0, destroyed := [], log := [] }

/- Key membership in the leds map. -/

def hasKey : List (List Char × Physical) → List Char → Bool
  | [], _ => false
  | e :: rest, key => if e.1 = key then true else hasKey rest key

/- Lookup in the leds map (first matching key). -/

def lookupLed : List (List Char × Physical) → List Char → Option Physical
  | [], _ => none
  | e :: rest, key => if e.1 = key then some e.2 else lookupLed rest key

/- InternalInterface::createLEDPath. If the device path does not exist the
   function logs the path and returns before parsing and before any object
   is constructed. Otherwise it parses, formats, builds the object path,
   constructs the SysfsLed handle and the Physical object, and calls
   leds.emplace. std::unordered_map::emplace does not overwrite an existing
   key: when the key is already present the map is left unchanged and the
   newly constructed Physical (with the device handle it owns) is
   destroyed. -/

def createLEDPath (fsExists : List Char → Bool) (st : InternalInterface)
    (ledName : List Char) : InternalInterface :=
  if fsExists (DEVPATH ++ ledName) = false then
    { st with log := st.log ++ [DEVPATH ++ ledName] }
  else
    if hasKey st.leds (ledObjectPath ledName) then
      { st with
          nextSerial := st.nextSerial + 1
          destroyed := st.destroyed ++ [st.nextSerial] }
    else
      { st with
          nextSerial := st.nextSerial + 1
          leds := st.leds ++ [(ledObjectPath ledName, mkPhysical ledName st.nextSerial)] }

/- InternalInterface::addLED and removeLED both delegate to
   createLEDPath. -/

def addLED (fsExists : List Char → Bool) (st : InternalInterface)
    (name : List Char) : InternalInterface :=
  createLEDPath fsExists st name

def removeLED (fsExists : List Char → Bool) (st : InternalInterface)
    (name : List Char) : InternalInterface :=
  createLEDPath fsExists st name

/- Outcome of one bus callback invocation. einval models the -EINVAL
   return, nullDeref models the undefined behaviour of calling a member
   function through a null context pointer, busError models an sdbusplus
   exception caught and converted with sd_bus_error_set, success carries
   the updated state and models the reply plus return value 1. -/

inductive HandlerOutcome where
  | einval : HandlerOutcome
  | nullDeref : HandlerOutcome
  | busError : HandlerOutcome
  | success : InternalInterface → HandlerOutcome
deriving DecidableEq, Repr

/- InternalInterface::addLedConfigure. The guard fires only when the
   message AND the context are both null. With a null context and a
   non-null message the guard is passed and self (cast from the null
   context) is dereferenced. With a null message and a live context the
   unpack of the argument fails inside sdbusplus, the exception is caught
   and reported through sd_bus_error_set. -/

def addLedConfigure (fsExists : List Char → Bool) (msg : Option (List Char))
    (context : Option InternalInterface) : HandlerOutcome :=
  if msg.isNone && context.isNone then HandlerOutcome.einval
  else
    match context with
    | none => HandlerOutcome.nullDeref
    | some st =>
      match msg with
      | none => HandlerOutcome.busError
      | some ledName => HandlerOutcome.success (addLED fsExists st ledName)

/- InternalInterface::removeLedConfigure, same shape. -/

def removeLedConfigure (fsExists : List Char → Bool) (msg : Option (List Char))
    (context : Option InternalInterface) : HandlerOutcome :=
  if msg.isNone && context.isNone then HandlerOutcome.einval
  else
    match context with
    | none => HandlerOutcome.nullDeref
    | some st =>
      match msg with
      | none => HandlerOutcome.busError
      | some ledName => HandlerOutcome.success (removeLED fsExists st ledName)

/- A finite sequence of bus operations, for the registry invariants. -/

inductive LedOp where
  | add : List Char → LedOp
  | remove : List Char → LedOp
deriving DecidableEq, Repr

def applyOp (fsExists : List Char → Bool) (st : InternalInterface) :
    LedOp → InternalInterface
  | LedOp.add n => addLED fsExists st n
  | LedOp.remove n => removeLED fsExists st n

def runOps (fsExists : List Char → Bool) (st : InternalInterface) :
    List LedOp → InternalInterface
  | [] => st
  | op :: rest => runOps fsExists (applyOp fsExists st op) rest

/- Helper lemmas. -/

theorem splitOnChar_eq_single (sep : Char) (n : List Char) (h : sep ∉ n) :
    splitOnChar sep n = [n] := by
  induction n with
  | nil => rfl
  | cons c rest ih =>
    have hc : ¬ c = sep := by
      intro hcs
      exact h (hcs ▸ List.mem_cons_self c rest)
    have hr : splitOnChar sep rest = [rest] := by
      refine ih ?_
      intro hm
      exact h (List.mem_cons_of_mem c hm)
    simp only [splitOnChar, if_neg hc, hr]

theorem lookupLed_append (m : List (List Char × Physical))
    (e : List Char × Physical) (k : List Char) (v : Physical)
    (h : lookupLed m k = some v) : lookupLed (m ++ [e]) k = some v := by
  induction m with
  | nil => simp [lookupLed] at h
  | cons hd tl ih =>
    by_cases hk : hd.1 = k
    · simpa [lookupLed, hk] using h
    · rw [lookupLed, if_neg hk] at h
      rw [List.cons_append, lookupLed, if_neg hk]
      exact ih h

theorem createLEDPath_preserves (fsExists : List Char → Bool)
    (st : InternalInterface) (n k : List Char) (v : Physical)
    (h : lookupLed st.leds k = some v) :
    lookupLed (createLEDPath fsExists st n).leds k = some v ∧
      st.leds.length ≤ (createLEDPath fsExists st n).leds.length := by
  unfold createLEDPath
  split
  · exact ⟨h, Nat.le_refl _⟩
  · split
    · exact ⟨h, Nat.le_refl _⟩
    · refine ⟨lookupLed_append _ _ _ _ h, ?_⟩
      simp

/-- C3: parsing the raw name "front:blue:fault" yields the descriptor with
deviceName "front", color "blue" and function "fault"; formatting that
descriptor yields the canonical id "front_fault_blue"; and the registry key
built from it is the object path
/xyz/openbmc_project/led/physical/front_fault_blue, the fixed root plus a
slash plus the canonical id, which is the key under which addLED inserts
the control object. -/
theorem scenario_front_blue_fault :
    getLedDescr "front:blue:fault".data =
      { devicename := "front".data, color := "blue".data, function := "fault".data } ∧
    getDbusName (getLedDescr "front:blue:fault".data) = "front_fault_blue".data ∧
    ledObjectPath "front:blue:fault".data =
      "/xyz/openbmc_project/led/physical/front_fault_blue".data ∧
    ledObjectPath "front:blue:fault".data = OBJPATH ++ ('/' :: "front_fault_blue".data) ∧
    (addLED (fun _ => true) initialState "front:blue:fault".data).leds =
      [("/xyz/openbmc_project/led/physical/front_fault_blue".data,
        mkPhysical "front:blue:fault".data 0)] := by
  decide

/-- C10: the raw-name-to-canonical-id derivation is not injective: the
distinct raw names "a:b" and "a::b" both map to the canonical id "a_b" and
hence to the same registry key, and the distinct raw names "a" and "a:"
both map to the canonical id "a". -/
theorem canonical_id_not_injective :
    getDbusName (getLedDescr "a:b".data) = "a_b".data ∧
    getDbusName (getLedDescr "a::b".data) = "a_b".data ∧
    "a:b".data ≠ "a::b".data ∧
    ledObjectPath "a:b".data = ledObjectPath "a::b".data ∧
    getDbusName (getLedDescr "a".data) = "a".data ∧
    getDbusName (getLedDescr "a:".data) = "a".data ∧
    "a".data ≠ "a:".data := by
  decide

/-- C1 counterexample: after two successive addLED("x:red:status") calls on
an empty registry (with the device path present), the live entry at the key
is the FIRST call's control object (serial 0), not the second call's
(serial 1), and the object destroyed by the second call is the newly
constructed one (serial 1), not the previously owned one (serial 0): the
second call does not supersede the first, refuting the claim as stated. -/
theorem addLED_twice_supersede_false :
    (lookupLed (addLED (fun _ => true)
        (addLED (fun _ => true) initialState "x:red:status".data)
        "x:red:status".data).leds
      (ledObjectPath "x:red:status".data)).map Physical.serial = some 0 ∧
    ¬ (lookupLed (addLED (fun _ => true)
        (addLED (fun _ => true) initialState "x:red:status".data)
        "x:red:status".data).leds
      (ledObjectPath "x:red:status".data)).map Physical.serial = some 1 ∧
    (addLED (fun _ => true)
        (addLED (fun _ => true) initialState "x:red:status".data)
        "x:red:status".data).destroyed = [1] ∧
    ¬ (0 : Nat) ∈ (addLED (fun _ => true)
        (addLED (fun _ => true) initialState "x:red:status".data)
        "x:red:status".data).destroyed := by
  decide

/-- C1 (amended): inserting under a key that already exists does not
replace the existing entry. After two successive addLED("x:red:status")
calls starting from the empty registry, with the device path existing, the
registry holds exactly one live entry at the path
/xyz/openbmc_project/led/physical/x_status_red, namely the first call's
control object (serial 0); the map emplace of the second call fails on the
existing key, and the second call's newly constructed control object
(serial 1, with the device handle it owns) is the one destroyed. -/
theorem addLED_twice_one_entry_first_wins (fsExists : List Char → Bool)
    (h : fsExists (DEVPATH ++ "x:red:status".data) = true) :
    (addLED fsExists (addLED fsExists initialState "x:red:status".data)
        "x:red:status".data).leds =
      [(ledObjectPath "x:red:status".data, mkPhysical "x:red:status".data 0)] ∧
    ledObjectPath "x:red:status".data =
      "/xyz/openbmc_project/led/physical/x_status_red".data ∧
    (addLED fsExists (addLED fsExists initialState "x:red:status".data)
        "x:red:status".data).destroyed = [1] := by
  refine ⟨?_, by decide, ?_⟩ <;>
    simp [addLED, createLEDPath, initialState, h, hasKey]

theorem addLED_twice_one_entry_first_wins_witness :
    (addLED (fun _ => true)
        (addLED (fun _ => true) initialState "x:red:status".data)
        "x:red:status".data).leds =
      [(ledObjectPath "x:red:status".data, mkPhysical "x:red:status".data 0)] ∧
    ledObjectPath "x:red:status".data =
      "/xyz/openbmc_project/led/physical/x_status_red".data ∧
    (addLED (fun _ => true)
        (addLED (fun _ => true) initialState "x:red:status".data)
        "x:red:status".data).destroyed = [1] :=
  addLED_twice_one_entry_first_wins (fun _ => true) rfl

/-- C2: removeLED performs the identical validation-and-derivation pipeline
as addLED (both delegate to createLEDPath), so for every filesystem oracle,
state and raw name the two operations produce identical states; in
particular removeLED never erases a registry entry: every entry present
before the call is still found at its key afterwards. -/
theorem removeLED_is_addLED (fsExists : List Char → Bool)
    (st : InternalInterface) (n : List Char) :
    removeLED fsExists st n = addLED fsExists st n ∧
    ∀ k v, lookupLed st.leds k = some v →
      lookupLed (removeLED fsExists st n).leds k = some v := by
  refine ⟨rfl, ?_⟩
  intro k v h
  exact (createLEDPath_preserves fsExists st n k v h).1

theorem removeLED_is_addLED_witness :
    removeLED (fun _ => true)
        (addLED (fun _ => true) initialState "a:b:c".data) "a:b:c".data =
      addLED (fun _ => true)
        (addLED (fun _ => true) initialState "a:b:c".data) "a:b:c".data ∧
    lookupLed (removeLED (fun _ => true)
        (addLED (fun _ => true) initialState "a:b:c".data) "a:b:c".data).leds
      (ledObjectPath "a:b:c".data) = some (mkPhysical "a:b:c".data 0) := by
  refine ⟨(removeLED_is_addLED (fun _ => true)
    (addLED (fun _ => true) initialState "a:b:c".data) "a:b:c".data).1, ?_⟩
  exact (removeLED_is_addLED (fun _ => true)
    (addLED (fun _ => true) initialState "a:b:c".data) "a:b:c".data).2
    (ledObjectPath "a:b:c".data) (mkPhysical "a:b:c".data 0) (by decide)

/-- C6: for every raw name containing no colon (exactly one colon-delimited
segment), the parser yields the descriptor with deviceName the whole name
and empty color and function, and the formatter applied to that descriptor
yields exactly the deviceName, with no separator appended. -/
theorem single_segment_roundtrip (n : List Char) (h : ':' ∉ n) :
    splitOnChar ':' n = [n] ∧
    getLedDescr n = { devicename := n, color := [], function := [] } ∧
    getDbusName (getLedDescr n) = n := by
  have hs : splitOnChar ':' n = [n] := splitOnChar_eq_single ':' n h
  have hd : getLedDescr n = { devicename := n, color := [], function := [] } := by
    unfold getLedDescr
    rw [hs]
  refine ⟨hs, hd, ?_⟩
  rw [hd]
  unfold getDbusName
  simp [List.intercalate]

theorem single_segment_roundtrip_witness :
    splitOnChar ':' "power".data = ["power".data] ∧
    getLedDescr "power".data =
      { devicename := "power".data, color := [], function := [] } ∧
    getDbusName (getLedDescr "power".data) = "power".data :=
  single_segment_roundtrip "power".data (by decide)

/-- C4 counterexample: at the three-segment raw name "front:blue:fault" the
parser does not take the 2nd segment "blue" as the function source nor the
3rd segment "fault" as the color source: function is "fault" and color is
"blue", and the formatted output is not "front_blue_fault" (the join the
claim's positional assignment would produce). Moreover at the three-segment
name "a::" the output is "a", not a three-part underscore join, since empty
fields are skipped. -/
theorem format_parse_positions_claim_false :
    ¬ (getLedDescr "front:blue:fault".data).function = "blue".data ∧
    ¬ (getLedDescr "front:blue:fault".data).color = "fault".data ∧
    ¬ getDbusName (getLedDescr "front:blue:fault".data) = "front_blue_fault".data ∧
    (getLedDescr "front:blue:fault".data).function = "fault".data ∧
    (getLedDescr "front:blue:fault".data).color = "blue".data ∧
    splitOnChar ':' "a::".data = ["a".data, [], []] ∧
    getDbusName (getLedDescr "a::".data) = "a".data := by
  decide

/-- C4 (amended): for every raw name n with at least three colon-delimited
segments, the parser's field assignment takes the 2nd segment as the
color-source-position and the 3rd segment as the function-source-position;
when those two segments are non-empty, format(parse(n)) deterministically
produces the join deviceName_function_color, the output order placing
function before color. -/
theorem format_parse_three_segments (n t0 t1 t2 : List Char)
    (rest : List (List Char)) (hs : splitOnChar ':' n = t0 :: t1 :: t2 :: rest)
    (h1 : t1 ≠ []) (h2 : t2 ≠ []) :
    getLedDescr n = { devicename := t0, color := t1, function := t2 } ∧
    getDbusName (getLedDescr n) = t0 ++ '_' :: t2 ++ '_' :: t1 := by
  have hd : getLedDescr n = { devicename := t0, color := t1, function := t2 } := by
    unfold getLedDescr
    rw [hs]
  refine ⟨hd, ?_⟩
  rw [hd]
  unfold getDbusName
  simp [h1, h2, List.intercalate]

theorem format_parse_three_segments_witness :
    getLedDescr "front:blue:fault".data =
      { devicename := "front".data, color := "blue".data, function := "fault".data } ∧
    getDbusName (getLedDescr "front:blue:fault".data) =
      "front".data ++ '_' :: "fault".data ++ '_' :: "blue".data :=
  format_parse_three_segments "front:blue:fault".data
    "front".data "blue".data "fault".data [] (by decide) (by decide) (by decide)

/-- C5: for every raw name whose device path does not exist under the fixed
sysfs root, createLEDPath (hence addLED and removeLED) logs the attempted
path and returns with the registry untouched and no control object
constructed (the leds map, the construction counter and the destruction
record are unchanged), and the bus handlers still return success to the RPC
caller. -/
theorem missing_device_aborts (fsExists : List Char → Bool)
    (st : InternalInterface) (n : List Char)
    (h : fsExists (DEVPATH ++ n) = false) :
    addLED fsExists st n = { st with log := st.log ++ [DEVPATH ++ n] } ∧
    removeLED fsExists st n = { st with log := st.log ++ [DEVPATH ++ n] } ∧
    (addLED fsExists st n).leds = st.leds ∧
    (addLED fsExists st n).nextSerial = st.nextSerial ∧
    (addLED fsExists st n).destroyed = st.destroyed ∧
    addLedConfigure fsExists (some n) (some st) =
      HandlerOutcome.success { st with log := st.log ++ [DEVPATH ++ n] } ∧
    removeLedConfigure fsExists (some n) (some st) =
      HandlerOutcome.success { st with log := st.log ++ [DEVPATH ++ n] } := by
  simp [addLED, removeLED, createLEDPath, addLedConfigure, removeLedConfigure, h]

theorem missing_device_aborts_witness :
    addLED (fun _ => false) initialState "power".data =
      { initialState with log := initialState.log ++ [DEVPATH ++ "power".data] } ∧
    removeLED (fun _ => false) initialState "power".data =
      { initialState with log := initialState.log ++ [DEVPATH ++ "power".data] } ∧
    (addLED (fun _ => false) initialState "power".data).leds = initialState.leds ∧
    (addLED (fun _ => false) initialState "power".data).nextSerial =
      initialState.nextSerial ∧
    (addLED (fun _ => false) initialState "power".data).destroyed =
      initialState.destroyed ∧
    addLedConfigure (fun _ => false) (some "power".data) (some initialState) =
      HandlerOutcome.success
        { initialState with log := initialState.log ++ [DEVPATH ++ "power".data] } ∧
    removeLedConfigure (fun _ => false) (some "power".data) (some initialState) =
      HandlerOutcome.success
        { initialState with log := initialState.log ++ [DEVPATH ++ "power".data] } :=
  missing_device_aborts (fun _ => false) initialState "power".data rfl

/-- C7 counterexample: the empty raw name is not rejected. With the bare
sysfs root directory existing (the existence check on DEVPATH plus the
empty name passes), addLED on the empty string inserts a degenerate entry
keyed by the fixed root plus a trailing slash, so the registry is no longer
empty, refuting the claim that add never inserts for the empty input. -/
theorem empty_name_not_rejected :
    (addLED (fun _ => true) initialState []).leds =
      [("/xyz/openbmc_project/led/physical/".data, mkPhysical [] 0)] ∧
    ¬ (addLED (fun _ => true) initialState []).leds = [] ∧
    getDbusName (getLedDescr []) = [] := by
  decide

/-- C7 (amended): the code performs no InvalidArgument check on the empty
raw name or its empty canonical id: for the empty input string, when the
existence check on the bare sysfs root passes and the degenerate key is not
yet present, addLED inserts an entry keyed by the fixed root plus a
trailing slash; only a failed existence check makes add return without
mutation (logging the attempted path). -/
theorem empty_name_behavior (fsExists : List Char → Bool)
    (st : InternalInterface) :
    (fsExists DEVPATH = false →
      addLED fsExists st [] = { st with log := st.log ++ [DEVPATH] }) ∧
    (fsExists DEVPATH = true → hasKey st.leds (ledObjectPath []) = false →
      (addLED fsExists st []).leds =
        st.leds ++ [(ledObjectPath [], mkPhysical [] st.nextSerial)]) := by
  constructor
  · intro h
    simp [addLED, createLEDPath, h]
  · intro h hk
    simp [addLED, createLEDPath, h, hk]

theorem empty_name_behavior_witness :
    addLED (fun _ => false) initialState [] =
      { initialState with log := initialState.log ++ [DEVPATH] } ∧
    (addLED (fun _ => true) initialState []).leds =
      initialState.leds ++ [(ledObjectPath [], mkPhysical [] initialState.nextSerial)] :=
  ⟨(empty_name_behavior (fun _ => false) initialState).1 rfl,
   (empty_name_behavior (fun _ => true) initialState).2 rfl rfl⟩

/-- C8: evaluating the bus callbacks at the failing input, a non-null
message carrying "fan1:green" together with a null (absent) callback
context: the null guard requires message AND context to both be null, so it
is passed, and the handler dereferences the null context instead of
returning the invalid-argument error -EINVAL; the two outcomes differ. -/
theorem null_context_not_einval :
    addLedConfigure (fun _ => true) (some "fan1:green".data) none =
      HandlerOutcome.nullDeref ∧
    removeLedConfigure (fun _ => true) (some "fan1:green".data) none =
      HandlerOutcome.nullDeref ∧
    ¬ addLedConfigure (fun _ => true) (some "fan1:green".data) none =
      HandlerOutcome.einval ∧
    addLedConfigure (fun _ => true) none none = HandlerOutcome.einval := by
  decide

/-- C9: across every finite sequence of addLED and removeLED calls the
registry map is monotone: no operation erases an entry or replaces the
value stored under an existing key, so every entry present at the start is
still the one found at its key at the end, and the map's size never
decreases. -/
theorem registry_monotone (fsExists : List Char → Bool) (ops : List LedOp)
    (st : InternalInterface) (k : List Char) (v : Physical)
    (h : lookupLed st.leds k = some v) :
    lookupLed (runOps fsExists st ops).leds k = some v ∧
      st.leds.length ≤ (runOps fsExists st ops).leds.length := by
  induction ops generalizing st with
  | nil => exact ⟨h, Nat.le_refl _⟩
  | cons op rest ih =>
    have hstep : lookupLed (applyOp fsExists st op).leds k = some v ∧
        st.leds.length ≤ (applyOp fsExists st op).leds.length := by
      cases op with
      | add n => exact createLEDPath_preserves fsExists st n k v h
      | remove n => exact createLEDPath_preserves fsExists st n k v h
    have hrec := ih (applyOp fsExists st op) hstep.1
    exact ⟨hrec.1, Nat.le_trans hstep.2 hrec.2⟩

theorem registry_monotone_witness :
    lookupLed (runOps (fun _ => true)
        (addLED (fun _ => true) initialState "a:b:c".data)
        [LedOp.remove "a:b:c".data, LedOp.add "a:b:c".data,
         LedOp.add "d:e:f".data]).leds
      (ledObjectPath "a:b:c".data) = some (mkPhysical "a:b:c".data 0) ∧
    (addLED (fun _ => true) initialState "a:b:c".data).leds.length ≤
      (runOps (fun _ => true)
        (addLED (fun _ => true) initialState "a:b:c".data)
        [LedOp.remove "a:b:c".data, LedOp.add "a:b:c".data,
         LedOp.add "d:e:f".data]).leds.length :=
  registry_monotone (fun _ => true)
    [LedOp.remove "a:b:c".data, LedOp.add "a:b:c".data, LedOp.add "d:e:f".data]
    (addLED (fun _ => true) initialState "a:b:c".data)
    (ledObjectPath "a:b:c".data) (mkPhysical "a:b:c".data 0) (by decide)
